import Mathlib

/-!
Verification development for the AI-trading-signals repository.

The repository ships a TypeScript/JavaScript presentation layer
(`src/config/api.ts`, `src/services/api.ts`, `clean_script.js`); the
fusion-and-scanning pipeline described in the design documents
(IndicatorEngine, SentimentScorer, SignalFuser, ScanScheduler,
SignalStore) is not present in the source tree, so those components are
modelled here from the specification text, while the presentation-layer
functions are shallow embeddings of the actual source.  Machine floats
are modelled by ℚ: every arithmetic comparison performed by the code is
expressed exactly (Bollinger-band comparisons are phrased on squared
distances so that no square root is needed).
-/

set_option autoImplicit false

namespace TradingSignals

/-- Shallow embedding of `getSignalColor` from `src/config/api.ts`
(lines 116-123): a `switch` on the signal type string with a `default`
branch. -/
def getSignalColor (signalType : String) : String :=
  if signalType = "BUY" then "success"
  else if signalType = "SELL" then "error"
  else if signalType = "HOLD" then "warning"
  else "default"

/-- Market metadata record, embedding the per-market objects of
`marketData` in `clean_script.js` (lines 6-75). -/
structure MarketInfo where
  name : String
  icon : String
  color : String
  description : String
  categories : List (String × List String)
deriving DecidableEq

/-- The `stocks` entry of `marketData` in `clean_script.js`. -/
def stocksInfo : MarketInfo :=
  ⟨"STOCKS", "📊", "#4CAF50", "US Equities & ETFs",
    [("NASDAQ", ["AAPL", "GOOGL", "MSFT", "AMZN", "TSLA", "META", "NVDA", "NFLX", "AMD", "INTC", "CRM", "ADBE"]),
     ("NYSE", ["JPM", "JNJ", "PG", "UNH", "HD", "BAC", "MA", "V", "NKE", "DIS", "WMT", "XOM"]),
     ("ETFs", ["SPY", "QQQ", "IWM", "DIA", "GLD", "SLV", "USO", "TLT", "VXX", "PYPL", "CVX", "KO"])]⟩

/-- The `forex` entry of `marketData` in `clean_script.js`. -/
def forexInfo : MarketInfo :=
  ⟨"FOREX", "💱", "#2196F3", "Currency Pairs",
    [("MAJORS", ["EURUSD=X", "GBPUSD=X", "USDJPY=X", "USDCHF=X", "AUDUSD=X", "USDCAD=X", "NZDUSD=X"]),
     ("MINORS", ["EURGBP=X", "EURJPY=X", "GBPJPY=X", "AUDJPY=X", "EURAUD=X", "GBPAUD=X", "AUDNZD=X"]),
     ("EXOTICS", ["USDSEK=X", "USDNOK=X", "USDDKK=X", "EURCHF=X", "GBPCHF=X", "USDZAR=X", "USDTRY=X"])]⟩

/-- The `crypto` entry of `marketData` in `clean_script.js`. -/
def cryptoInfo : MarketInfo :=
  ⟨"CRYPTO", "₿", "#FFC107", "Digital Assets",
    [("MAJORS", ["BTC-USD", "ETH-USD", "BNB-USD", "XRP-USD", "SOL-USD"]),
     ("DEFI", ["UNI-USD", "AAVE-USD", "COMP-USD", "MKR-USD", "SUSHI-USD"]),
     ("LAYER1", ["ADA-USD", "DOT-USD", "AVAX-USD", "MATIC-USD", "ATOM-USD"])]⟩

/-- The `futures` entry of `marketData` in `clean_script.js`. -/
def futuresInfo : MarketInfo :=
  ⟨"FUTURES", "⛽", "#FF9800", "Commodities & Indices",
    [("METALS", ["GC", "SI", "PL", "PA", "HG", "AL", "NI", "ZN"]),
     ("ENERGY", ["CL", "NG", "HO", "RB", "BZ", "QS", "BZ=F"]),
     ("INDICES", ["ES", "NQ", "YM", "RTY", "SPX", "NDX", "DJI", "RUT"]),
     ("AGRICULTURE", ["ZC", "ZS", "ZW", "KC", "CC", "CT", "SB", "CC=F"]),
     ("BONDS", ["ZB", "ZN", "ZF", "ZT", "GE", "TU", "FV", "TY"])]⟩

/-- The `indices` entry of `marketData` in `clean_script.js`. -/
def indicesInfo : MarketInfo :=
  ⟨"INDICES", "📈", "#f44336", "Market Indexes & ETFs",
    [("US_INDICES", ["SPY", "QQQ", "IWM", "DIA", "VTI", "VOO", "VEA", "VWO"]),
     ("INTERNATIONAL", ["EFA", "EEM", "ACWI", "VT", "VXUS", "BND", "TLT", "IEF"]),
     ("VOLATILITY", ["VXX", "UVXY", "TVIX", "VIXY", "SHY", "LQD", "HYG", "EMB"])]⟩

/-- The `metals` entry of `marketData` in `clean_script.js`. -/
def metalsInfo : MarketInfo :=
  ⟨"METALS", "🥇", "#9C27B0", "Precious Metals & Commodities",
    [("PRECIOUS", ["GC", "SI", "PL", "PA", "GLD", "SLV", "PPLT", "PALL"]),
     ("MINING", ["GDX", "GDXJ", "SIL", "COPX", "PICK", "REMX", "URA", "LIT"]),
     ("AGRICULTURE", ["BAL", "NIB", "JO", "CAFE", "WEAT", "CORN", "SOYB", "CANE"])]⟩

/-- The complete `marketData` table of `clean_script.js` (lines 6-75),
keyed by the market identifier used by `selectMarket`/`showMarketSymbols`. -/
def marketData : List (String × MarketInfo) :=
  [("stocks", stocksInfo), ("forex", forexInfo), ("crypto", cryptoInfo),
   ("futures", futuresInfo), ("indices", indicesInfo), ("metals", metalsInfo)]

/-- One symbol card as rendered by `showMarketSymbols` in
`clean_script.js`: the inner HTML shows the symbol and its category name. -/
structure SymbolCard where
  symbol : String
  category : String
deriving DecidableEq

/-- Embedding of the per-category loop body of `showMarketSymbols`
(`clean_script.js` line 149): `symbols.slice(0, 8).forEach(...)` creates one
card per symbol of the truncated list. -/
def renderCategoryCards (categoryName : String) (symbols : List String) : List SymbolCard :=
  (symbols.take 8).map (fun s => ⟨s, categoryName⟩)

/-- Embedding of the rendering performed by `showMarketSymbols`
(`clean_script.js` lines 121-187): for each category of the market a header
and a grid of symbol cards. -/
def showMarketSymbols (info : MarketInfo) : List (String × List SymbolCard) :=
  info.categories.map (fun c => (c.1, renderCategoryCards c.1 c.2))

/-- Observable effects of one run of `analyzeCustomSymbol`
(`clean_script.js` lines 236-271): alerts shown, URLs fetched, and
innerHTML writes to the `analyzer-results` element, in order. -/
structure AnalyzerEffects where
  alerts : List String
  fetchUrls : List String
  analyzerUpdates : List String
deriving DecidableEq

/-- The alert text of `analyzeCustomSymbol` (`clean_script.js` line 241). -/
def alertMsg : String := "Please enter a symbol to analyze"

/-- The loading message written before the fetch (`clean_script.js` line 248). -/
def loadingHtml (symbol : String) : String := "Analyzing " ++ symbol

/-- The success message written after the fetch (`clean_script.js` lines 256-263);
`data.message || 'Analysis complete'` is the `Option.getD` below. -/
def successHtml (symbol msg : String) : String := "Analysis for " ++ symbol ++ ": " ++ msg

/-- The catch-branch message (`clean_script.js` line 268). -/
def errorHtml : String := "Error analyzing symbol"

/-- JavaScript `String.prototype.trim`: strip leading and trailing
whitespace, modelled on the character list. -/
def jsTrim (s : String) : String :=
  ⟨((s.data.dropWhile Char.isWhitespace).reverse.dropWhile Char.isWhitespace).reverse⟩

/-- Shallow embedding of `analyzeCustomSymbol` (`clean_script.js` lines
236-271).  `inputValue` is the value of the `analyze-symbol` input
(`none` when the element is missing), `divPresent` says whether the
`analyzer-results` element exists, and `response` is the outcome of
`fetch('/api/analyze/' + symbol)` carrying the optional `data.message`.
`symbolInput?.value?.trim()` followed by `if (!symbol)` means both a
missing element and a whitespace-only value take the alert-and-return
path. -/
def analyzeCustomSymbol (inputValue : Option String) (divPresent : Bool)
    (response : Except Unit (Option String)) : AnalyzerEffects :=
  match inputValue.map jsTrim with
  | none => ⟨[alertMsg], [], []⟩
  | some symbol =>
    if symbol = "" then ⟨[alertMsg], [], []⟩
    else
      let url := "/api/analyze/" ++ symbol
      match response with
      | Except.ok msg =>
          ⟨[], [url],
            if divPresent then [loadingHtml symbol, successHtml symbol (msg.getD "Analysis complete")] else []⟩
      | Except.error _ =>
          ⟨[], [url], if divPresent then [loadingHtml symbol, errorHtml] else []⟩

/-- Embedding of the axios instance configuration in
`src/services/api.ts` (lines 5-10): every request made through `api`
carries this bounded timeout in milliseconds. -/
def apiTimeoutMs : Nat := 10000

/-- Modelled from the spec: the discrete signal classes of §3,
`signal_type ∈ \x7bBUY, SELL, HOLD\x7d`. -/
inductive SignalType
  | BUY
  | SELL
  | HOLD
deriving DecidableEq

/-- Modelled from the spec: the Signal record of §3,
`\x7bsymbol, signal_type, confidence, contributing_indicators, timestamp,
price_at_signal\x7d`, identified by `(symbol, timestamp)`. -/
structure Signal where
  symbol : String
  signal_type : SignalType
  confidence : ℚ
  contributing_indicators : List String
  timestamp : Nat
  price_at_signal : ℚ
deriving DecidableEq

/-- Modelled from the spec: the store-level conflict error of §7. -/
inductive StoreError
  | DuplicateTimestamp
deriving DecidableEq

/-- Modelled from the spec: `SignalStore.append` (§4.5) over an
append-only in-memory history.  The store is not in the source tree, so
it is modelled as the list of previously appended signals; `append`
returns the (possibly unchanged) history together with an optional
error: a duplicate `(symbol, timestamp)` key is rejected with
`DuplicateTimestamp` and the history is returned untouched. -/
def SignalStore.append (store : List Signal) (s : Signal) : List Signal × Option StoreError :=
  if store.any (fun t => t.symbol == s.symbol && t.timestamp == s.timestamp)
  then (store, some StoreError.DuplicateTimestamp)
  else (store ++ [s], none)

/-- Modelled from the spec: the PricePoint record of §3 (floats as ℚ). -/
structure PricePoint where
  timestamp : Nat
  open_price : ℚ
  high : ℚ
  low : ℚ
  close : ℚ
  volume : ℚ
deriving DecidableEq

/-- Close prices of a series, oldest first. -/
def closes (series : List PricePoint) : List ℚ :=
  series.map PricePoint.close

/-- Name and lookback of one requested indicator (§4.1, glossary). -/
structure IndicatorReq where
  name : String
  lookback : Nat
deriving DecidableEq

/-- Modelled from the spec: the documented default basket of requested
indicators with their lookbacks (§4.1; the 200-period moving average is
the spec's own example of the longest lookback; RSI period 14 needs 15
points for 14 deltas; MACD 12/26/9 needs 26+9 points; Bollinger period
20). -/
def requestedIndicators : List IndicatorReq :=
  [⟨"SMA200", 200⟩, ⟨"RSI14", 15⟩, ⟨"MACD", 35⟩, ⟨"BB20", 20⟩]

/-- The longest lookback among the requested indicators. -/
def maxLookback : Nat :=
  (requestedIndicators.map IndicatorReq.lookback).foldr max 0

/-- Last `n` elements of a list. -/
def lastN (n : Nat) (xs : List ℚ) : List ℚ :=
  xs.drop (xs.length - n)

/-- Simple moving average over the last `n` closes. -/
def sma (n : Nat) (xs : List ℚ) : ℚ :=
  (lastN n xs).sum / n

/-- One step of an exponential moving average with multiplier `k`. -/
def emaStep (k : ℚ) (acc x : ℚ) : ℚ :=
  x * k + acc * (1 - k)

/-- Exponential moving average with the standard multiplier `2/(n+1)`,
seeded by the first element. -/
def ema (n : Nat) : List ℚ → ℚ
  | [] => 0
  | x :: xs => xs.foldl (emaStep (2 / ((n : ℚ) + 1))) x

/-- MACD line: 12-period EMA minus 26-period EMA (§4.1, 12/26/9). -/
def macdLine (xs : List ℚ) : ℚ :=
  ema 12 xs - ema 26 xs

/-- MACD signal line: 9-period EMA of the MACD line over the prefixes of
the series. -/
def macdSignalLine (xs : List ℚ) : ℚ :=
  ema 9 ((List.range xs.length).map (fun i => macdLine (xs.take (i + 1))))

/-- Population variance of the last 20 closes; the Bollinger bands are
`sma 20 ± 2·√variance`, which this development compares via squared
distances so the embedding stays in ℚ. -/
def variance20 (xs : List ℚ) : ℚ :=
  ((lastN 20 xs).map (fun x => (x - sma 20 xs) ^ 2)).sum / 20

/-- Consecutive differences of a series (price deltas). -/
def diffs : List ℚ → List ℚ
  | x :: y :: rest => (y - x) :: diffs (y :: rest)
  | _ => []

/-- Upward moves of a delta series. -/
def gains (ds : List ℚ) : List ℚ :=
  ds.map (fun d => max d 0)

/-- Downward moves of a delta series, as magnitudes. -/
def losses (ds : List ℚ) : List ℚ :=
  ds.map (fun d => max (-d) 0)

/-- Wilder smoothing: fold `new = (old·(n-1) + x)/n` over the tail. -/
def wilderSmooth (n : ℚ) (seed : ℚ) : List ℚ → ℚ
  | [] => seed
  | x :: xs => wilderSmooth n ((seed * (n - 1) + x) / n) xs

/-- Simple average of the first `n` elements (the Wilder seed). -/
def avgFirst (n : Nat) (xs : List ℚ) : ℚ :=
  (xs.take n).sum / n

/-- Wilder moving average of period `n`: simple average of the first `n`
values as the seed, then Wilder smoothing over the rest. -/
def wilderAverage (n : Nat) (xs : List ℚ) : ℚ :=
  wilderSmooth n (avgFirst n xs) (xs.drop n)

/-- Modelled from the spec: RSI with Wilder smoothing, period 14 (§4.1),
with the documented boundary rule of §4.1: when the average loss is zero
the division is never performed and RSI is the defined boundary value
100. -/
def rsi (xs : List ℚ) : ℚ :=
  let ds := diffs xs
  let avgGain := wilderAverage 14 (gains ds)
  let avgLoss := wilderAverage 14 (losses ds)
  if avgLoss = 0 then 100
  else 100 - 100 / (1 + avgGain / avgLoss)

/-- Modelled from the spec: the IndicatorSet of §3 for the requested
basket, every field computed fresh from one series. -/
structure IndicatorSet where
  sma200 : ℚ
  rsi14 : ℚ
  macd_line : ℚ
  macd_signal : ℚ
  bb_mid : ℚ
  bb_var : ℚ
deriving DecidableEq

/-- Result of `IndicatorEngine.compute` (§4.1): a full IndicatorSet, or
`incomplete` naming the indicators whose lookback is not satisfied. -/
inductive ComputeResult
  | ok (set : IndicatorSet)
  | incomplete (missing : List String)
deriving DecidableEq

/-- Whether a compute result carries a full IndicatorSet. -/
def ComputeResult.isOk : ComputeResult → Bool
  | ComputeResult.ok _ => true
  | ComputeResult.incomplete _ => false

/-- Names of the requested indicators whose lookback exceeds the series
length. -/
def lackingIndicators (len : Nat) : List String :=
  (requestedIndicators.filter (fun i => len < i.lookback)).map IndicatorReq.name

/-- Modelled from the spec: `IndicatorEngine.compute` (§4.1).  The engine
is not in the source tree; per the contract it requires series length ≥
the longest lookback, returns `incomplete` naming which indicators lack
data otherwise, and computes every indicator as a pure function of the
series. -/
def IndicatorEngine.compute (series : List PricePoint) : ComputeResult :=
  let xs := closes series
  if xs.length < maxLookback then
    ComputeResult.incomplete (lackingIndicators xs.length)
  else
    ComputeResult.ok
      { sma200 := sma 200 xs
        rsi14 := rsi xs
        macd_line := macdLine xs
        macd_signal := macdSignalLine xs
        bb_mid := sma 20 xs
        bb_var := variance20 xs }

/-- Modelled from the spec: the SentimentScore of §3 — bounded scalar
with a staleness flag, a tag and the as-of time. -/
structure SentimentScore where
  value : ℚ
  stale : Bool
  tag : String
  asOf : Nat
deriving DecidableEq

/-- Clamp a rational into `[lo, hi]`. -/
def clampQ (lo hi x : ℚ) : ℚ :=
  max lo (min hi x)

/-- Mean polarity of raw text items (the stub-level scoring of §4.2). -/
def rawPolarity (items : List ℚ) : ℚ :=
  items.sum / items.length

/-- Modelled from the spec: `SentimentScorer.score` (§4.2).  The scorer
is not in the source tree; per the contract it is total: a missing feed
(`ok none`) yields the neutral 0 score tagged "no-data", any internal
fetching/scoring error degrades to a neutral staleness-flagged score,
and available data is reduced to a bounded scalar in `[-1, 1]`. -/
def SentimentScorer.score (asOf : Nat)
    (textData : Except String (Option (List ℚ))) : SentimentScore :=
  match textData with
  | Except.error _ => ⟨0, true, "error-degraded", asOf⟩
  | Except.ok none => ⟨0, false, "no-data", asOf⟩
  | Except.ok (some items) => ⟨clampQ (-1) 1 (rawPolarity items), false, "scored", asOf⟩

/-- Modelled from the spec: the RSI voting rule of §4.3 — RSI<30 is a buy
vote, RSI>70 a sell vote. -/
def rsiVote (r : ℚ) : Int :=
  if r < 30 then 1 else if 70 < r then -1 else 0

/-- Modelled from the spec: the MACD voting rule of §4.3 — line above
signal is a buy vote, below a sell vote. -/
def macdVote (line signal : ℚ) : Int :=
  if signal < line then 1 else if line < signal then -1 else 0

/-- Modelled from the spec: the Bollinger mean-reversion vote of §4.3 —
price above the upper band votes sell, below the lower band votes buy.
`price > mid + 2σ` is encoded exactly on squares as
`price > mid ∧ (price-mid)² > 4·variance`. -/
def bbVote (price mid bvar : ℚ) : Int :=
  if mid < price ∧ 4 * bvar < (price - mid) ^ 2 then -1
  else if price < mid ∧ 4 * bvar < (price - mid) ^ 2 then 1
  else 0

/-- Documented fixed weight for the RSI vote (§4.3 configuration table;
§9 leaves the exact values to the implementer). -/
def weightRSI : ℚ := 2

/-- Documented fixed weight for the MACD vote. -/
def weightMACD : ℚ := 2

/-- Documented fixed weight for the Bollinger vote. -/
def weightBB : ℚ := 1

/-- Documented fixed weight for the sentiment contribution. -/
def weightSentiment : ℚ := 1

/-- Maximum possible weighted sum (all votes saturated). -/
def maxWeight : ℚ :=
  weightRSI + weightMACD + weightBB + weightSentiment

/-- Modelled from the spec: the symmetric fusion threshold, the default
±0.15 of the maximum possible weighted sum (§4.3). -/
def fusionThreshold : ℚ :=
  15 / 100 * maxWeight

/-- Modelled from the spec: the weighted vote sum of §4.3.  Sentiment
contributes its bounded value directly (a vote scaled by its own
magnitude). -/
def combinedScore (ind : IndicatorSet) (sent : SentimentScore) (price : ℚ) : ℚ :=
  weightRSI * (rsiVote ind.rsi14 : ℚ)
    + weightMACD * (macdVote ind.macd_line ind.macd_signal : ℚ)
    + weightBB * (bbVote price ind.bb_mid ind.bb_var : ℚ)
    + weightSentiment * sent.value

/-- Modelled from the spec: the confidence discount of §4.3 — discounted
when the IndicatorSet was incomplete and when the sentiment is stale
(documented factors 1/2 and 3/4). -/
def discountFactor (wasIncomplete stale : Bool) : ℚ :=
  (if wasIncomplete then (1 : ℚ) / 2 else 1) * (if stale then (3 : ℚ) / 4 else 1)

/-- Modelled from the spec: `SignalFuser.fuse` (§4.3).  The fuser is not
in the source tree; per the contract the signal type comes from the
combined score against the two symmetric thresholds with HOLD on the
boundary (strict inequalities), and confidence is the normalized
absolute combined score on the 0-100 scale, discounted for incomplete
indicators and stale sentiment.  Timestamp and price are supplied by the
caller. -/
def SignalFuser.fuse (symbol : String) (wasIncomplete : Bool) (ind : IndicatorSet)
    (sent : SentimentScore) (price : ℚ) (ts : Nat) : Signal :=
  let c := combinedScore ind sent price
  let ty :=
    if fusionThreshold < c then SignalType.BUY
    else if c < -fusionThreshold then SignalType.SELL
    else SignalType.HOLD
  { symbol := symbol
    signal_type := ty
    confidence := |c| / maxWeight * 100 * discountFactor wasIncomplete sent.stale
    contributing_indicators := ["SMA200", "RSI14", "MACD", "BB20", "SENTIMENT"]
    timestamp := ts
    price_at_signal := price }

/-- Outcome of one market-data fetch as seen by the scheduler (§5, §6):
success, failure, or exceeding the bounded timeout. -/
inductive FetchResult
  | success (series : List PricePoint)
  | failure
  | timedOut
deriving DecidableEq

/-- Modelled from the spec: documented maximum retry attempts (§4.4,
"documented max attempts, e.g., 3"). -/
def maxRetryAttempts : Nat := 3

/-- Per-symbol retry bookkeeping of the scheduler. -/
structure RetryState where
  attempts : Nat
deriving DecidableEq

/-- Next action the scheduler takes for a symbol after a fetch. -/
inductive ScanAction
  | record (series : List PricePoint)
  | retryWithBackoff (delay : Nat)
  | markErrored
deriving DecidableEq

/-- Exponential backoff delay for the given attempt number (§4.4). -/
def backoffDelay (attempt : Nat) : Nat :=
  2 ^ attempt

/-- Modelled from the spec: the failure path of §4.4 — retry with bounded
exponential backoff until the documented maximum attempts, then mark the
symbol ERRORED (and reset, since it returns to IDLE and is retried on
the next interval). -/
def onFetchFailure (st : RetryState) : RetryState × ScanAction :=
  if st.attempts + 1 < maxRetryAttempts
  then (⟨st.attempts + 1⟩, ScanAction.retryWithBackoff (backoffDelay st.attempts))
  else (⟨0⟩, ScanAction.markErrored)

/-- Modelled from the spec: how the scheduler reacts to one fetch
outcome (§4.4, §5): success records the series and resets the retry
count; a failure takes the retry/backoff path; exceeding the timeout is
treated identically to a fetch failure. -/
def handleFetchResult (r : FetchResult) (st : RetryState) : RetryState × ScanAction :=
  match r with
  | FetchResult.success s => (⟨0⟩, ScanAction.record s)
  | FetchResult.failure => onFetchFailure st
  | FetchResult.timedOut => onFetchFailure st

/-!
Helper lemmas shared by the claim theorems below.
-/

/-- For every requested indicator, its name appears in the lacking list
exactly when the series length is below its lookback. -/
lemma lacking_mem_iff (len : Nat) :
    ∀ i ∈ requestedIndicators, (i.name ∈ lackingIndicators len ↔ len < i.lookback) := by
  intro i hi
  fin_cases hi <;>
    simp only [lackingIndicators, requestedIndicators, List.filter_cons, List.filter_nil] <;>
    split_ifs <;> simp_all

/-- Wilder smoothing of an all-zero tail from a zero seed stays zero. -/
lemma wilderSmooth_zero (n : ℚ) (l : List ℚ) (h : ∀ x ∈ l, x = 0) :
    wilderSmooth n 0 l = 0 := by
  induction l with
  | nil => rfl
  | cons x xs ih =>
    have hx : x = 0 := h x (List.mem_cons_self x xs)
    rw [wilderSmooth, hx]
    have hstep : ((0 : ℚ) * (n - 1) + 0) / n = 0 := by simp
    rw [hstep]
    exact ih (fun y hy => h y (List.mem_cons_of_mem x hy))

/-- The Wilder moving average of an all-zero series is zero. -/
lemma wilderAverage_zero (n : Nat) (l : List ℚ) (h : ∀ x ∈ l, x = 0) :
    wilderAverage n l = 0 := by
  unfold wilderAverage avgFirst
  have ht : (l.take n).sum = 0 :=
    List.sum_eq_zero (fun x hx => h x (List.mem_of_mem_take hx))
  rw [ht]
  have hz : ((0 : ℚ)) / n = 0 := by simp
  rw [hz]
  exact wilderSmooth_zero n (l.drop n) (fun x hx => h x (List.mem_of_mem_drop hx))

/-- A delta series with no down moves has an all-zero loss series. -/
lemma losses_all_zero (ds : List ℚ) (h : ∀ d ∈ ds, 0 ≤ d) :
    ∀ x ∈ losses ds, x = 0 := by
  intro x hx
  rw [losses, List.mem_map] at hx
  obtain ⟨d, hd, hdx⟩ := hx
  have hneg : -d ≤ 0 := neg_nonpos_of_nonneg (h d hd)
  simp [← hdx, max_eq_right hneg]

/-- The delta series of a constant price series is all zero. -/
lemma diffs_replicate_eq (n : Nat) (c : ℚ) :
    diffs (List.replicate n c) = List.replicate (n - 1) 0 := by
  induction n with
  | zero => rfl
  | succ m ih =>
    cases m with
    | zero => rfl
    | succ k =>
      have hstep : List.replicate (k + 2) c = c :: c :: List.replicate k c := by
        simp [List.replicate_succ]
      rw [hstep, diffs, sub_self]
      have hback : c :: List.replicate k c = List.replicate (k + 1) c := by
        simp [List.replicate_succ]
      rw [hback, ih]
      simp [List.replicate_succ]

/-- The RSI vote is one of the three directional values. -/
lemma rsiVote_cases (r : ℚ) : rsiVote r = 1 ∨ rsiVote r = 0 ∨ rsiVote r = -1 := by
  rw [rsiVote]; split_ifs <;> simp

/-- The MACD vote is one of the three directional values. -/
lemma macdVote_cases (a b : ℚ) : macdVote a b = 1 ∨ macdVote a b = 0 ∨ macdVote a b = -1 := by
  rw [macdVote]; split_ifs <;> simp

/-- The Bollinger vote is one of the three directional values. -/
lemma bbVote_cases (p m v : ℚ) : bbVote p m v = 1 ∨ bbVote p m v = 0 ∨ bbVote p m v = -1 := by
  rw [bbVote]; split_ifs <;> simp

/-- The combined weighted vote sum never exceeds the maximum possible
weighted sum in absolute value, for bounded sentiment. -/
lemma combinedScore_abs_le (ind : IndicatorSet) (sent : SentimentScore) (price : ℚ)
    (h1 : -1 ≤ sent.value) (h2 : sent.value ≤ 1) :
    |combinedScore ind sent price| ≤ maxWeight := by
  rcases rsiVote_cases ind.rsi14 with ha | ha | ha <;>
    rcases macdVote_cases ind.macd_line ind.macd_signal with hb | hb | hb <;>
    rcases bbVote_cases price ind.bb_mid ind.bb_var with hc | hc | hc <;>
      (rw [combinedScore, ha, hb, hc, maxWeight, weightRSI, weightMACD, weightBB, weightSentiment]
       rw [abs_le]
       constructor <;> push_cast <;> linarith)

/-- The confidence discount factor lies in [0, 1]. -/
lemma discountFactor_bounds (a b : Bool) :
    0 ≤ discountFactor a b ∧ discountFactor a b ≤ 1 := by
  rw [discountFactor]; split_ifs <;> norm_num

/-!
Claim theorems.
-/

/-- C1: for every IndicatorSet/SentimentScore pair (sentiment bounded in
[-1,1] per its data-model invariant) given to `SignalFuser.fuse`, the
resulting Signal has confidence in the closed interval [0,100] and
signal_type equal to exactly one of BUY, SELL, HOLD. -/
theorem fuse_confidence_in_range_and_type_discrete (symbol : String) (inc : Bool)
    (ind : IndicatorSet) (sent : SentimentScore) (price : ℚ) (ts : Nat)
    (h1 : -1 ≤ sent.value) (h2 : sent.value ≤ 1) :
    (0 ≤ (SignalFuser.fuse symbol inc ind sent price ts).confidence ∧
      (SignalFuser.fuse symbol inc ind sent price ts).confidence ≤ 100) ∧
    ((SignalFuser.fuse symbol inc ind sent price ts).signal_type = SignalType.BUY ∨
      (SignalFuser.fuse symbol inc ind sent price ts).signal_type = SignalType.SELL ∨
      (SignalFuser.fuse symbol inc ind sent price ts).signal_type = SignalType.HOLD) := by
  have habs := combinedScore_abs_le ind sent price h1 h2
  have hd := discountFactor_bounds inc sent.stale
  have hmw : (0 : ℚ) < maxWeight := by
    rw [maxWeight, weightRSI, weightMACD, weightBB, weightSentiment]; norm_num
  constructor
  · have hconf : (SignalFuser.fuse symbol inc ind sent price ts).confidence =
        |combinedScore ind sent price| / maxWeight * 100 * discountFactor inc sent.stale := rfl
    rw [hconf]
    have hnn : 0 ≤ |combinedScore ind sent price| := abs_nonneg _
    constructor
    · have hpos : 0 ≤ |combinedScore ind sent price| / maxWeight * 100 := by positivity
      exact mul_nonneg hpos hd.1
    · have hr : |combinedScore ind sent price| / maxWeight ≤ 1 := by
        rw [div_le_one hmw]; exact habs
      have hstep : |combinedScore ind sent price| / maxWeight * 100 ≤ 100 := by nlinarith
      have hstep2 : |combinedScore ind sent price| / maxWeight * 100 * discountFactor inc sent.stale ≤
          |combinedScore ind sent price| / maxWeight * 100 :=
        mul_le_of_le_one_right (by positivity) hd.2
      linarith
  · have hty : (SignalFuser.fuse symbol inc ind sent price ts).signal_type =
        (if fusionThreshold < combinedScore ind sent price then SignalType.BUY
         else if combinedScore ind sent price < -fusionThreshold then SignalType.SELL
         else SignalType.HOLD) := rfl
    rw [hty]
    split_ifs <;> simp

/-- C1 witness: a concrete fuse call with neutral indicators and neutral
sentiment satisfies the bounds. -/
theorem fuse_confidence_in_range_and_type_discrete_witness :
    (0 ≤ (SignalFuser.fuse "AAPL" false ⟨50, 50, 0, 0, 0, 0⟩ ⟨0, false, "no-data", 0⟩ 1 5).confidence ∧
      (SignalFuser.fuse "AAPL" false ⟨50, 50, 0, 0, 0, 0⟩ ⟨0, false, "no-data", 0⟩ 1 5).confidence ≤ 100) ∧
    ((SignalFuser.fuse "AAPL" false ⟨50, 50, 0, 0, 0, 0⟩ ⟨0, false, "no-data", 0⟩ 1 5).signal_type = SignalType.BUY ∨
      (SignalFuser.fuse "AAPL" false ⟨50, 50, 0, 0, 0, 0⟩ ⟨0, false, "no-data", 0⟩ 1 5).signal_type = SignalType.SELL ∨
      (SignalFuser.fuse "AAPL" false ⟨50, 50, 0, 0, 0, 0⟩ ⟨0, false, "no-data", 0⟩ 1 5).signal_type = SignalType.HOLD) :=
  fuse_confidence_in_range_and_type_discrete "AAPL" false ⟨50, 50, 0, 0, 0, 0⟩
    ⟨0, false, "no-data", 0⟩ 1 5 (by decide) (by decide)

/-- C2: `SignalStore.append` of a signal whose (symbol, timestamp) key is
already present fails with DuplicateTimestamp and returns the history
unchanged. -/
theorem append_duplicate_timestamp_rejected (store : List Signal) (s : Signal)
    (h : ∃ t ∈ store, t.symbol = s.symbol ∧ t.timestamp = s.timestamp) :
    SignalStore.append store s = (store, some StoreError.DuplicateTimestamp) := by
  obtain ⟨t, ht, h1, h2⟩ := h
  have hany : store.any (fun t => t.symbol == s.symbol && t.timestamp == s.timestamp) = true := by
    rw [List.any_eq_true]
    exact ⟨t, ht, by simp [h1, h2]⟩
  simp [SignalStore.append, hany]

/-- C2 witness: appending a signal with a duplicate (symbol, timestamp)
key to a concrete one-element store is rejected and leaves the store
unchanged. -/
theorem append_duplicate_timestamp_rejected_witness :
    SignalStore.append [⟨"AAPL", SignalType.BUY, 80, ["RSI14"], 5, 100⟩]
        ⟨"AAPL", SignalType.SELL, 20, ["MACD"], 5, 101⟩ =
      ([⟨"AAPL", SignalType.BUY, 80, ["RSI14"], 5, 100⟩], some StoreError.DuplicateTimestamp) :=
  append_duplicate_timestamp_rejected _ _
    ⟨⟨"AAPL", SignalType.BUY, 80, ["RSI14"], 5, 100⟩, List.mem_singleton.mpr rfl, rfl, rfl⟩

/-- C3: for every price series shorter than the longest requested
lookback, `IndicatorEngine.compute` returns the Incomplete result whose
name list is nonempty and names exactly the indicators whose lookback is
not satisfied. -/
theorem compute_incomplete_names_lacking (series : List PricePoint)
    (h : (closes series).length < maxLookback) :
    IndicatorEngine.compute series =
      ComputeResult.incomplete (lackingIndicators (closes series).length) ∧
    lackingIndicators (closes series).length ≠ [] ∧
    ∀ i ∈ requestedIndicators,
      (i.name ∈ lackingIndicators (closes series).length ↔ (closes series).length < i.lookback) := by
  refine ⟨?_, ?_, lacking_mem_iff _⟩
  · simp [IndicatorEngine.compute, h]
  · have h200 : (closes series).length < 200 := by
      have hm : maxLookback = 200 := by decide
      rw [hm] at h; exact h
    have hmem : ("SMA200" : String) ∈ lackingIndicators (closes series).length := by
      have hx := lacking_mem_iff (closes series).length ⟨"SMA200", 200⟩ (by simp [requestedIndicators])
      simpa using hx.mpr h200
    exact List.ne_nil_of_mem hmem

/-- C3 witness: a 20-point series is below the 200-point lookback and
yields a nonempty Incomplete result. -/
theorem compute_incomplete_names_lacking_witness :
    (closes (List.replicate 20 (⟨0, 1, 1, 1, 1, 1⟩ : PricePoint))).length < maxLookback ∧
    IndicatorEngine.compute (List.replicate 20 (⟨0, 1, 1, 1, 1, 1⟩ : PricePoint)) =
      ComputeResult.incomplete
        (lackingIndicators (closes (List.replicate 20 (⟨0, 1, 1, 1, 1, 1⟩ : PricePoint))).length) ∧
    lackingIndicators (closes (List.replicate 20 (⟨0, 1, 1, 1, 1, 1⟩ : PricePoint))).length ≠ [] :=
  ⟨by decide,
    (compute_incomplete_names_lacking (List.replicate 20 ⟨0, 1, 1, 1, 1, 1⟩) (by decide)).1,
    (compute_incomplete_names_lacking (List.replicate 20 ⟨0, 1, 1, 1, 1, 1⟩) (by decide)).2.1⟩

/-- C4: for every series with the RSI lookback satisfied and no down
moves (all consecutive deltas nonnegative, so the Wilder average loss is
zero), the RSI evaluates to the boundary value 100, and any full
IndicatorSet computed from the series carries rsi14 = 100; the division
never happens and `IndicatorEngine.compute` is total. -/
theorem rsi_no_losses_boundary (series : List PricePoint)
    (hlen : 15 ≤ (closes series).length)
    (hmono : ∀ d ∈ diffs (closes series), 0 ≤ d) :
    rsi (closes series) = 100 ∧
    ∀ s, IndicatorEngine.compute series = ComputeResult.ok s → s.rsi14 = 100 := by
  have hrsi : rsi (closes series) = 100 := by
    have hzero : wilderAverage 14 (losses (diffs (closes series))) = 0 :=
      wilderAverage_zero 14 _ (losses_all_zero _ hmono)
    rw [rsi]
    simp [hzero]
  refine ⟨hrsi, ?_⟩
  intro s hs
  rw [IndicatorEngine.compute] at hs
  by_cases hlt : (closes series).length < maxLookback
  · simp [hlt] at hs
  · simp [hlt] at hs
    rw [← hs]
    exact hrsi

/-- C4 witness: a 15-point constant series has no down moves and RSI
exactly 100. -/
theorem rsi_no_losses_boundary_witness :
    15 ≤ (closes (List.replicate 15 (⟨0, 1, 1, 1, 1, 1⟩ : PricePoint))).length ∧
    rsi (closes (List.replicate 15 (⟨0, 1, 1, 1, 1, 1⟩ : PricePoint))) = 100 :=
  ⟨by simp [closes],
    (rsi_no_losses_boundary (List.replicate 15 ⟨0, 1, 1, 1, 1, 1⟩) (by simp [closes])
      (by
        intro d hd
        rw [closes, List.map_replicate, diffs_replicate_eq] at hd
        rw [List.eq_of_mem_replicate hd])).1⟩

/-- C5: `IndicatorEngine.compute` is a pure function: on any series with
the full lookback satisfied, repeated calls on the identical series are
definitionally the same value and that value is a full IndicatorSet (not
Incomplete). -/
theorem compute_deterministic_on_sufficient_series (series : List PricePoint)
    (h : maxLookback ≤ (closes series).length) :
    IndicatorEngine.compute series = IndicatorEngine.compute series ∧
    ComputeResult.isOk (IndicatorEngine.compute series) = true := by
  refine ⟨rfl, ?_⟩
  rw [IndicatorEngine.compute]
  rw [if_neg (by omega)]
  rfl

set_option maxRecDepth 8000 in
/-- C5 witness: a 200-point series satisfies the longest lookback. -/
theorem compute_deterministic_on_sufficient_series_witness :
    maxLookback ≤ (closes (List.replicate 200 (⟨0, 1, 1, 1, 1, 1⟩ : PricePoint))).length ∧
    IndicatorEngine.compute (List.replicate 200 (⟨0, 1, 1, 1, 1, 1⟩ : PricePoint)) =
      IndicatorEngine.compute (List.replicate 200 (⟨0, 1, 1, 1, 1, 1⟩ : PricePoint)) ∧
    ComputeResult.isOk
      (IndicatorEngine.compute (List.replicate 200 (⟨0, 1, 1, 1, 1, 1⟩ : PricePoint))) = true :=
  ⟨by
    have hl : (closes (List.replicate 200 (⟨0, 1, 1, 1, 1, 1⟩ : PricePoint))).length = 200 := by
      simp [closes]
    rw [hl]; decide,
    compute_deterministic_on_sufficient_series (List.replicate 200 ⟨0, 1, 1, 1, 1, 1⟩)
      (by
        have hl : (closes (List.replicate 200 (⟨0, 1, 1, 1, 1, 1⟩ : PricePoint))).length = 200 := by
          simp [closes]
        rw [hl]; decide)⟩

/-- C6: `SentimentScorer.score` is total into SentimentScore (never an
error): no data yields the neutral 0 score tagged "no-data", an internal
error degrades to a neutral staleness-flagged score, and the value is
always bounded in [-1, 1]. -/
theorem sentiment_score_total_and_neutral (asOf : Nat)
    (input : Except String (Option (List ℚ))) :
    (input = Except.ok none →
      SentimentScorer.score asOf input = ⟨0, false, "no-data", asOf⟩) ∧
    (∀ e, input = Except.error e →
      (SentimentScorer.score asOf input).value = 0 ∧
      (SentimentScorer.score asOf input).stale = true) ∧
    (-1 ≤ (SentimentScorer.score asOf input).value ∧
      (SentimentScorer.score asOf input).value ≤ 1) := by
  refine ⟨?_, ?_, ?_⟩
  · intro h; subst h; rfl
  · intro e h; subst h; exact ⟨rfl, rfl⟩
  · match input with
    | Except.error e => simp [SentimentScorer.score]
    | Except.ok none => simp [SentimentScorer.score]
    | Except.ok (some items) =>
      constructor
      · exact le_max_left _ _
      · exact max_le (by norm_num) (min_le_left _ _)

/-- C6 witness: the no-data and internal-error cases at concrete inputs. -/
theorem sentiment_score_total_and_neutral_witness :
    SentimentScorer.score 5 (Except.ok none) = ⟨0, false, "no-data", 5⟩ ∧
    (SentimentScorer.score 7 (Except.error "boom")).value = 0 ∧
    (SentimentScorer.score 7 (Except.error "boom")).stale = true :=
  ⟨(sentiment_score_total_and_neutral 5 (Except.ok none)).1 rfl,
    ((sentiment_score_total_and_neutral 7 (Except.error "boom")).2.1 "boom" rfl).1,
    ((sentiment_score_total_and_neutral 7 (Except.error "boom")).2.1 "boom" rfl).2⟩

/-- C7: every market-data fetch carries the bounded 10000 ms axios
timeout configured in `src/services/api.ts`, and the scheduler handles a
fetch that exceeds its timeout identically to a fetch failure (same
retry/backoff step) in every retry state. -/
theorem fetch_timeout_bounded_and_failure_equivalent :
    apiTimeoutMs = 10000 ∧
    ∀ st, handleFetchResult FetchResult.timedOut st = handleFetchResult FetchResult.failure st :=
  ⟨rfl, fun _ => rfl⟩

/-- C8: whenever the symbol input is absent or trims to the empty
string, `analyzeCustomSymbol` only shows the alert: it performs no fetch
and no update of the analyzer results element. -/
theorem analyzeCustomSymbol_blank_input_alert_only (inp : Option String) (divPresent : Bool)
    (response : Except Unit (Option String))
    (h : inp = none ∨ ∃ v, inp = some v ∧ jsTrim v = "") :
    analyzeCustomSymbol inp divPresent response = ⟨[alertMsg], [], []⟩ := by
  rcases h with h | ⟨v, hv, ht⟩
  · subst h; rfl
  · subst hv
    simp [analyzeCustomSymbol, ht]

/-- C8 witness: a whitespace-only input results in the alert only. -/
theorem analyzeCustomSymbol_blank_input_alert_only_witness :
    analyzeCustomSymbol (some "   ") true (Except.ok none) = ⟨[alertMsg], [], []⟩ :=
  analyzeCustomSymbol_blank_input_alert_only (some "   ") true (Except.ok none)
    (Or.inr ⟨"   ", rfl, by decide⟩)

/-- C9: for every market of the marketData table and every category
rendered by `showMarketSymbols`, at most 8 symbol cards are rendered,
regardless of the length of the category's symbol list. -/
theorem showMarketSymbols_at_most_eight_cards (key : String) (info : MarketInfo)
    (hm : (key, info) ∈ marketData) (cat : String) (cards : List SymbolCard)
    (hc : (cat, cards) ∈ showMarketSymbols info) :
    cards.length ≤ 8 := by
  rw [showMarketSymbols, List.mem_map] at hc
  obtain ⟨⟨c1, c2⟩, hmem, heq⟩ := hc
  simp only [Prod.mk.injEq] at heq
  obtain ⟨hname, hcards⟩ := heq
  subst hcards
  simp [renderCategoryCards, List.length_take]

/-- C9 witness: the NASDAQ category of the stocks market lists 12
symbols yet renders at most 8 cards. -/
theorem showMarketSymbols_at_most_eight_cards_witness :
    8 < (["AAPL", "GOOGL", "MSFT", "AMZN", "TSLA", "META", "NVDA", "NFLX", "AMD", "INTC", "CRM", "ADBE"] : List String).length ∧
    (renderCategoryCards "NASDAQ"
        ["AAPL", "GOOGL", "MSFT", "AMZN", "TSLA", "META", "NVDA", "NFLX", "AMD", "INTC", "CRM", "ADBE"]).length ≤ 8 :=
  ⟨by decide,
    showMarketSymbols_at_most_eight_cards "stocks" stocksInfo (by decide) "NASDAQ"
      (renderCategoryCards "NASDAQ"
        ["AAPL", "GOOGL", "MSFT", "AMZN", "TSLA", "META", "NVDA", "NFLX", "AMD", "INTC", "CRM", "ADBE"])
      (by decide)⟩

/-- C10: `getSignalColor` is total on strings and returns exactly one of
the four colors: BUY maps to success, SELL to error, HOLD to warning and
every other string to default. -/
theorem getSignalColor_total_classification :
    getSignalColor "BUY" = "success" ∧
    getSignalColor "SELL" = "error" ∧
    getSignalColor "HOLD" = "warning" ∧
    (∀ s, s ≠ "BUY" → s ≠ "SELL" → s ≠ "HOLD" → getSignalColor s = "default") ∧
    (∀ s, getSignalColor s = "success" ∨ getSignalColor s = "error" ∨
      getSignalColor s = "warning" ∨ getSignalColor s = "default") := by
  refine ⟨rfl, rfl, rfl, ?_, ?_⟩
  · intro s h1 h2 h3
    simp [getSignalColor, h1, h2, h3]
  · intro s
    rw [getSignalColor]
    split_ifs <;> simp

/-- C10 witness: an out-of-vocabulary signal type maps to default. -/
theorem getSignalColor_total_classification_witness :
    getSignalColor "MOMENTUM" = "default" :=
  getSignalColor_total_classification.2.2.2.1 "MOMENTUM" (by decide) (by decide) (by decide)

end TradingSignals
